import Mathlib

/-!
Verification of the deploy-frontend lifecycle manager
(`server/builtin-skills/deploy-frontend/scripts/deploy.py` and
`scripts/cleanup.py`): a shallow embedding of the port allocator, asset
stager, config generator, reload controller, record store and the two
orchestrators, together with proofs of the specified properties.

Modelling conventions:
- the filesystem state under one nginx base directory is an explicit
  `FS` value (deployment records keyed by project id, staged html trees
  and generated conf files keyed by their absolute path string);
- external effects (socket bind checks, `shutil` copies, `docker`
  invocations, clock reads) are oracles collected in a `World` value,
  read in exactly the order the Python code performs them;
- Python exceptions become `Except`/`Bool` results; `sys.exit` codes are
  the returned `Nat` of the CLI entry-point models.
-/

/-- Deployment record: the seven-field dict built by `deploy_frontend`
(deploy.py lines 151-159) and persisted as `deployments/<id>.json`. -/
structure DeployInfo where
  project_id : String
  port : Nat
  url : String
  html_dir : String
  conf_file : String
  source_dir : String
  deployed_at : String
deriving DecidableEq

/-- JSON scalar values appearing in a deployment record: every field is a
string except `port`, which is a number. -/
inductive JsonVal where
  | jstr (s : String)
  | jnum (n : Nat)
deriving DecidableEq

/-- Serialization of a record, mirroring the dict literal at deploy.py
lines 151-159 that `json.dumps` writes (key order as in the source). -/
def record_to_json (d : DeployInfo) : List (String × JsonVal) :=
  [("project_id", .jstr d.project_id),
   ("port", .jnum d.port),
   ("url", .jstr d.url),
   ("html_dir", .jstr d.html_dir),
   ("conf_file", .jstr d.conf_file),
   ("source_dir", .jstr d.source_dir),
   ("deployed_at", .jstr d.deployed_at)]

/-- Read a string field from a parsed JSON object, as `info['key']` does
after `json.load` (cleanup.py lines 35-45). -/
def json_str (j : List (String × JsonVal)) (k : String) : Option String :=
  match j.lookup k with
  | some (.jstr s) => some s
  | _ => none

/-- Read a numeric field from a parsed JSON object. -/
def json_num (j : List (String × JsonVal)) (k : String) : Option Nat :=
  match j.lookup k with
  | some (.jnum n) => some n
  | _ => none

/-- Deserialization of a record file: `json.load` followed by reading all
seven keys of the record schema. -/
def record_of_json (j : List (String × JsonVal)) : Option DeployInfo :=
  match json_str j "project_id", json_num j "port", json_str j "url",
        json_str j "html_dir", json_str j "conf_file",
        json_str j "source_dir", json_str j "deployed_at" with
  | some a, some b, some c, some d, some e, some f, some g =>
      some { project_id := a, port := b, url := c, html_dir := d,
             conf_file := e, source_dir := f, deployed_at := g }
  | _, _, _, _, _, _, _ => none

/-- Remove every entry with the given key from an association list
(models deleting the file or directory stored at that key). -/
def removeKey {α : Type} (k : String) (m : List (String × α)) :
    List (String × α) :=
  m.filter (fun p => p.1 != k)

/-- Write an entry at the given key, replacing any previous one (models
`write_text` / `copytree` overwriting the path). -/
def setKey {α : Type} (k : String) (v : α) (m : List (String × α)) :
    List (String × α) :=
  (k, v) :: removeKey k m

/-- Port allocator (deploy.py lines 17-26): scan
`range(start, start + attempts)` and return the first port whose bind
probe succeeds; `none` models the final `raise RuntimeError` when the
whole range is exhausted. `portFree` is the oracle for whether
`socket.bind(('', port))` succeeds at the moment of the check. -/
def find_available_port (portFree : Nat → Bool) : Nat → Nat → Option Nat
  | _, 0 => none
  | start, attempts + 1 =>
      if portFree start then some start
      else find_available_port portFree (start + 1) attempts

/-- Project id generator (deploy.py lines 39-41):
`f"project-{int(time.time())}"` applied to the integer second `t` read
from the wall clock. `Nat.repr` is Python's decimal rendering of the
integer. -/
def generate_project_id (t : Nat) : String :=
  "project-" ++ Nat.repr t

/-- Staged asset directory `html/<id>` under the nginx base directory
(deploy.py line 132), as the absolute path string stored in the record. -/
def htmlDirPath (base id : String) : String :=
  base ++ "/html/" ++ id

/-- Generated config file `config/conf.d/<id>.conf` under the nginx base
directory (deploy.py lines 67-70). -/
def confFilePath (base id : String) : String :=
  base ++ "/config/conf.d/" ++ id ++ ".conf"

/-- Rendered nginx virtual-host configuration, the f-string of deploy.py
lines 45-66 (literal braces written as hex escapes). -/
def nginx_conf_content (project_id : String) (port : Nat) : String :=
  "server \x7b\n    listen " ++ Nat.repr port ++
  ";\n    server_name localhost;\n\n    root /usr/share/nginx/html/" ++
  project_id ++
  ";\n    index index.html index.htm;\n\n    location / \x7b\n        try_files $uri $uri/ /index.html;\n    \x7d\n\n    # 启用 gzip 压缩\n    gzip on;\n    gzip_types text/plain text/css application/json application/javascript text/xml application/xml text/javascript;\n\n    # 缓存静态资源\n    location ~* \\.(jpg|jpeg|png|gif|ico|css|js|svg|woff|woff2|ttf|eot)$ \x7b\n        expires 1y;\n        add_header Cache-Control \"public, immutable\";\n    \x7d\n\x7d\n"

/-- Directory tree of staged assets: contents of a copied source
directory (`shutil.copytree` preserves names and file contents). -/
inductive FsTree where
  | file (content : String)
  | dir (children : List (String × FsTree))

/-- Filesystem state under one nginx base directory:
`deployments/<id>.json` record files keyed by id (their parsed content),
`html/<path>` staged trees and `config/conf.d/<path>.conf` files keyed
by absolute path string. -/
structure FS where
  records : List (String × DeployInfo)
  htmlDirs : List (String × FsTree)
  confFiles : List (String × String)

/-- Error taxonomy of the orchestration steps, one constructor per
`raise` site reachable from `deploy_frontend` and per failing external
command. -/
inductive DeployErr where
  | sourceNotFound
  | noAvailablePort
  | stageCopyFailed
  | configWriteFailed
  | composeFileMissing
  | proxyReloadFailed
deriving DecidableEq

/-- External command a reload operation issues: `docker-compose up -d`
(full topology start) or `docker exec nginx-web nginx -s reload`. -/
inductive NginxCmd where
  | composeUp
  | execReload
deriving DecidableEq

/-- World of external observations, in the order the scripts make them.
Each `Bool` is the success of one side-effecting call. -/
structure World where
  sourceTree : Option FsTree
  timeNow : Nat
  portFree : Nat → Bool
  copyOk : Bool
  confWriteOk : Bool
  composeExists : Bool
  containerRunning : Bool
  startOk : Bool
  reloadSignalOk : Bool
  localIp : String
  deployedAt : String
  rmtreeOk : Bool
  unlinkOk : Bool

/-- Reload controller of deploy.py lines 74-102: require the compose
file, query `docker ps` for a running `nginx-web`, then either start the
topology or signal a reload. Returns the command issued. -/
def reload_nginx (w : World) : Except DeployErr NginxCmd :=
  if !w.composeExists then .error .composeFileMissing
  else if !w.containerRunning then
    if w.startOk then .ok .composeUp else .error .proxyReloadFailed
  else
    if w.reloadSignalOk then .ok .execReload else .error .proxyReloadFailed

/-- Reload step of cleanup.py lines 50-55: unconditionally
`docker exec nginx-web nginx -s reload`, with no compose-file check and
no `docker ps` query. -/
def cleanupReloadStep (w : World) : Except DeployErr NginxCmd :=
  if w.reloadSignalOk then .ok .execReload else .error .proxyReloadFailed

/-- Config generator (deploy.py lines 43-72): ensure `config/conf.d`
exists, render the virtual host and write `<id>.conf` there; returns the
conf file path. `confWriteOk` is the oracle for the mkdir/write calls. -/
def create_nginx_conf (w : World) (project_id : String) (port : Nat)
    (base : String) (fs : FS) : Except DeployErr (String × FS) :=
  if w.confWriteOk then
    let conf_file := confFilePath base project_id
    .ok (conf_file,
      { fs with confFiles :=
          setKey conf_file (nginx_conf_content project_id port) fs.confFiles })
  else .error .configWriteFailed

/-- Asset staging step (deploy.py lines 131-135): if a directory already
exists at the destination path it is removed by `shutil.rmtree`, then
`shutil.copytree` copies the source tree there. -/
def stageInto (src : FsTree) (path : String) (m : List (String × FsTree)) :
    List (String × FsTree) :=
  let m1 := if (m.lookup path).isSome then removeKey path m else m
  (path, src) :: m1

/-- Deploy orchestrator (deploy.py lines 104-164): validate the source,
generate the id, allocate a port, stage assets, write the config,
reload nginx, compute the URL, and only then persist the record.
On any failure the record store field of the state is left untouched.
The partial on-disk effects of a failed `copytree` are abstracted to
"no staged tree recorded"; only the step's success or failure matters
downstream. -/
def deploy_frontend (w : World) (sourcePath base : String) (fs : FS) :
    Except DeployErr DeployInfo × FS :=
  match w.sourceTree with
  | none => (.error .sourceNotFound, fs)
  | some src =>
    let project_id := generate_project_id w.timeNow
    match find_available_port w.portFree 8080 100 with
    | none => (.error .noAvailablePort, fs)
    | some port =>
      let html_dir := htmlDirPath base project_id
      if w.copyOk then
        let fs1 := { fs with htmlDirs := stageInto src html_dir fs.htmlDirs }
        match create_nginx_conf w project_id port base fs1 with
        | .error e => (.error e, fs1)
        | .ok (conf_file, fs2) =>
          match reload_nginx w with
          | .error e => (.error e, fs2)
          | .ok _ =>
            let url := "http://" ++ w.localIp ++ ":" ++ Nat.repr port
            let info : DeployInfo :=
              { project_id := project_id, port := port, url := url,
                html_dir := html_dir, conf_file := conf_file,
                source_dir := sourcePath, deployed_at := w.deployedAt }
            (.ok info, { fs2 with records := setKey project_id info fs2.records })
      else (.error .stageCopyFailed, fs)

/-- Final part of `cleanup_deployment` (cleanup.py lines 50-58): reload
nginx, then delete the record file; any reload failure is caught and
reported as `False` with the record still on disk. -/
def cleanupAfterConf (w : World) (id : String) (fs : FS) : Bool × FS :=
  match cleanupReloadStep w with
  | .error _ => (false, fs)
  | .ok _ => (true, { fs with records := removeKey id fs.records })

/-- Middle part of `cleanup_deployment` (cleanup.py lines 44-48): unlink
the conf file if it exists, then continue with the reload step. -/
def cleanupAfterHtml (w : World) (id : String) (info : DeployInfo)
    (fs : FS) : Bool × FS :=
  if (fs.confFiles.lookup info.conf_file).isSome then
    if w.unlinkOk then
      cleanupAfterConf w id
        { fs with confFiles := removeKey info.conf_file fs.confFiles }
    else (false, fs)
  else cleanupAfterConf w id fs

/-- Cleanup orchestrator (cleanup.py lines 14-67): look up the record by
id (missing record reports failure before any mutation), remove the
staged html directory if present, remove the conf file if present,
reload nginx, and delete the record file last. Every exception inside
the `try` block is caught and reported as `False`. -/
def cleanup_deployment (w : World) (id : String) (fs : FS) : Bool × FS :=
  match fs.records.lookup id with
  | none => (false, fs)
  | some info =>
    if (fs.htmlDirs.lookup info.html_dir).isSome then
      if w.rmtreeOk then
        cleanupAfterHtml w id info
          { fs with htmlDirs := removeKey info.html_dir fs.htmlDirs }
      else (false, fs)
    else cleanupAfterHtml w id info fs

/-- Per-id loop body of `cleanup_all` (cleanup.py lines 108-111): run
`cleanup_deployment` on each id in turn, recording each outcome and
continuing regardless of individual failures. -/
def cleanupEach (w : World) : List String → FS → List (String × Bool) × FS
  | [], fs => ([], fs)
  | id :: rest, fs =>
      let r := cleanup_deployment w id fs
      let rr := cleanupEach w rest r.2
      ((id, r.1) :: rr.1, rr.2)

/-- Bulk cleanup (cleanup.py lines 95-111): iterate the record files
currently under `deployments/` and clean each id independently. -/
def cleanup_all (w : World) (fs : FS) : List (String × Bool) × FS :=
  cleanupEach w (fs.records.map Prod.fst) fs

/-- Hardcoded default base directory shared by both scripts. -/
def DEFAULT_NGINX_BASE_DIR : String := "/home/xubuntu001/AI/nginx"

/-- Base directory chosen from the optional second CLI argument. -/
def argBase (rest : List String) : String :=
  match rest with
  | [] => DEFAULT_NGINX_BASE_DIR
  | b :: _ => b

/-- CLI entry point of deploy.py (lines 166-188): usage error exits 1;
any exception from `deploy_frontend` is caught, printed, and the process
exits 1; success prints the record and exits 0. The returned `Nat` is
the process exit status. -/
def deploy_main (w : World) (args : List String) (fs : FS) : Nat × FS :=
  match args with
  | [] => (1, fs)
  | sourceDir :: rest =>
    match deploy_frontend w sourceDir (argBase rest) fs with
    | (.ok _, fs2) => (0, fs2)
    | (.error _, fs2) => (1, fs2)

/-- CLI entry point of cleanup.py (lines 113-130): usage error exits 1;
`list`, `all` and named-id cleanup all fall through to a normal process
end, so the exit status is 0 whatever `cleanup_deployment` returned. -/
def cleanup_main (w : World) (args : List String) (fs : FS) : Nat × FS :=
  match args with
  | [] => (1, fs)
  | cmd :: _ =>
    if cmd = "list" then (0, fs)
    else if cmd = "all" then (0, (cleanup_all w fs).2)
    else (0, (cleanup_deployment w cmd fs).2)

theorem lookup_setKey_self {α : Type} (k : String) (v : α)
    (m : List (String × α)) : (setKey k v m).lookup k = some v := by
  simp [setKey, List.lookup]

theorem removeKey_idem {α : Type} (k : String) (m : List (String × α)) :
    removeKey k (removeKey k m) = removeKey k m := by
  induction m with
  | nil => rfl
  | cons a t ih =>
    cases hb : (a.1 != k) <;> simp [removeKey, List.filter_cons, hb, ih]

theorem removeKey_of_lookup_none {α : Type} (k : String)
    (m : List (String × α)) (h : m.lookup k = none) : removeKey k m = m := by
  induction m with
  | nil => rfl
  | cons a t ih =>
    cases a with
    | mk k1 v =>
      simp only [List.lookup] at h
      by_cases hk : k = k1
      · simp [hk] at h
      · have hb : (k == k1) = false := by simpa using hk
        rw [hb] at h
        have hb2 : (k1 != k) = true := by
          simp [bne]
          exact fun he => hk he.symm
        simp only [removeKey, List.filter_cons, hb2, if_true]
        rw [show t.filter (fun p => p.1 != k) = removeKey k t from rfl, ih h]

theorem setKey_idem {α : Type} (k : String) (v : α) (m : List (String × α)) :
    setKey k v (setKey k v m) = setKey k v m := by
  simp only [setKey]
  congr 1
  show removeKey k ((k, v) :: removeKey k m) = removeKey k m
  simp only [removeKey, List.filter_cons, bne_self_eq_false]
  exact removeKey_idem k m

theorem stageInto_eq_setKey (src : FsTree) (p : String)
    (m : List (String × FsTree)) : stageInto src p m = setKey p src m := by
  simp only [stageInto, setKey]
  by_cases h : (m.lookup p).isSome
  · simp [h]
  · have hn : m.lookup p = none := Option.not_isSome_iff_eq_none.mp h
    simp [h, removeKey_of_lookup_none p m hn]

/-- Claim C2: the port allocator returns the first bindable port of
`[start, start + attempts)`, never a port outside that range, and
reports `NoAvailablePort` exactly when every port of the range fails to
bind. -/
theorem find_available_port_spec (freeP : Nat → Bool) (start attempts : Nat) :
    (∀ p, find_available_port freeP start attempts = some p →
        start ≤ p ∧ p < start + attempts ∧ freeP p = true ∧
        ∀ q, start ≤ q → q < p → freeP q = false)
    ∧ (find_available_port freeP start attempts = none ↔
        ∀ q, start ≤ q → q < start + attempts → freeP q = false) := by
  induction attempts generalizing start with
  | zero =>
    refine ⟨fun p h => by simp [find_available_port] at h, ?_⟩
    simp only [find_available_port]
    constructor
    · intro _ q h1 h2; omega
    · intro _; trivial
  | succ a ih =>
    cases hf : freeP start with
    | true =>
      constructor
      · intro p h
        simp [find_available_port, hf] at h
        subst h
        exact ⟨Nat.le_refl _, by omega, hf, fun q h1 h2 => by omega⟩
      · constructor
        · intro h; simp [find_available_port, hf] at h
        · intro hall
          have hc := hall start (Nat.le_refl _) (by omega)
          rw [hc] at hf
          cases hf
    | false =>
      constructor
      · intro p h
        simp only [find_available_port, hf, if_false, Bool.false_eq_true] at h
        obtain ⟨h1, h2, h3, h4⟩ := (ih (start + 1)).1 p h
        refine ⟨by omega, by omega, h3, ?_⟩
        intro q hq1 hq2
        by_cases hq : q = start
        · rw [hq]; exact hf
        · exact h4 q (by omega) hq2
      · simp only [find_available_port, hf, if_false, Bool.false_eq_true]
        rw [(ih (start + 1)).2]
        constructor
        · intro hall q hq1 hq2
          by_cases hq : q = start
          · rw [hq]; exact hf
          · exact hall q (by omega) (by omega)
        · intro hall q hq1 hq2
          exact hall q (by omega) (by omega)

/-- Bindability oracle with ports 8080-8082 occupied and everything from
8083 free (the end-to-end scenario of the spec). -/
def freeFrom8083 : Nat → Bool := fun q => decide (8083 ≤ q)

theorem find_available_port_spec_witness :
    8080 ≤ 8083 ∧ 8083 < 8080 + 100 ∧ freeFrom8083 8083 = true :=
  ⟨((find_available_port_spec freeFrom8083 8080 100).1 8083 rfl).1,
   ((find_available_port_spec freeFrom8083 8080 100).1 8083 rfl).2.1,
   ((find_available_port_spec freeFrom8083 8080 100).1 8083 rfl).2.2.1⟩

/-- Leading segment of the rendered demo config, up to the listen
directive. -/
def demoConfPre : String := "server \x7b\n    "

/-- Segment of the rendered demo config between the listen directive and
the root directive. -/
def demoConfMid : String := "\n    server_name localhost;\n\n    "

/-- Trailing segment of the rendered demo config, after the root
directive. -/
def demoConfPost : String :=
  "\n    index index.html index.htm;\n\n    location / \x7b\n        try_files $uri $uri/ /index.html;\n    \x7d\n\n    # 启用 gzip 压缩\n    gzip on;\n    gzip_types text/plain text/css application/json application/javascript text/xml application/xml text/javascript;\n\n    # 缓存静态资源\n    location ~* \\.(jpg|jpeg|png|gif|ico|css|js|svg|woff|woff2|ttf|eot)$ \x7b\n        expires 1y;\n        add_header Cache-Control \"public, immutable\";\n    \x7d\n\x7d\n"

/-- Claim C3: the config generator writes its output to
`config_dir/conf.d/<id>.conf` under the base directory, leaving records
and staged trees untouched; and the rendered file for id `demo`, port
`8123` has listen directive `8123` and a document root referencing
`demo` under the proxy's runtime served root. -/
theorem create_nginx_conf_spec (w : World) (id : String) (port : Nat)
    (base : String) (fs : FS) :
    (∀ p fs2, create_nginx_conf w id port base fs = .ok (p, fs2) →
        p = base ++ "/config/conf.d/" ++ id ++ ".conf" ∧
        fs2.confFiles.lookup p = some (nginx_conf_content id port) ∧
        fs2.records = fs.records ∧ fs2.htmlDirs = fs.htmlDirs)
    ∧ nginx_conf_content "demo" 8123 =
        demoConfPre ++ "listen 8123;" ++ demoConfMid ++
        "root /usr/share/nginx/html/demo;" ++ demoConfPost := by
  constructor
  · intro p fs2 h
    cases hc : w.confWriteOk with
    | false => simp [create_nginx_conf, hc] at h
    | true =>
      simp only [create_nginx_conf, hc, if_true, Except.ok.injEq,
        Prod.mk.injEq] at h
      obtain ⟨hp, hfs⟩ := h
      subst hp
      subst hfs
      exact ⟨rfl, lookup_setKey_self _ _ _, rfl, rfl⟩
  · rfl

/-- Empty filesystem state: fresh base directory with no deployments. -/
def fsEmpty : FS := { records := [], htmlDirs := [], confFiles := [] }

/-- Concrete world where every external step succeeds. -/
def wAllOk : World :=
  { sourceTree := some (.dir [("index.html", .file "<html></html>")]),
    timeNow := 1700000000,
    portFree := fun _ => true,
    copyOk := true,
    confWriteOk := true,
    composeExists := true,
    containerRunning := true,
    startOk := true,
    reloadSignalOk := true,
    localIp := "192.168.1.7",
    deployedAt := "2023-11-14 22:13:20",
    rmtreeOk := true,
    unlinkOk := true }

/-- Filesystem state produced by writing the demo config into an empty
base directory. -/
def demoFS : FS :=
  { records := [], htmlDirs := [],
    confFiles := [("/base/config/conf.d/demo.conf",
                   nginx_conf_content "demo" 8123)] }

theorem create_nginx_conf_spec_witness :
    "/base/config/conf.d/demo.conf" =
      "/base" ++ "/config/conf.d/" ++ "demo" ++ ".conf" ∧
    demoFS.confFiles.lookup "/base/config/conf.d/demo.conf" =
      some (nginx_conf_content "demo" 8123) := by
  have h := (create_nginx_conf_spec wAllOk "demo" 8123 "/base" fsEmpty).1
      "/base/config/conf.d/demo.conf" demoFS rfl
  exact ⟨h.1, h.2.1⟩

/-- Claim C6: staging overwrites rather than merges: after staging, the
destination holds exactly the source tree, and staging the same source
to the same id twice leaves the destination map identical to a single
staging. -/
theorem stage_idempotent (src : FsTree) (p : String)
    (m : List (String × FsTree)) :
    stageInto src p (stageInto src p m) = stageInto src p m ∧
    (stageInto src p m).lookup p = some src := by
  constructor
  · simp only [stageInto_eq_setKey]
    exact setKey_idem p src m
  · rw [stageInto_eq_setKey]
    exact lookup_setKey_self p src m

/-- Claim C9: a record serialized by `put` and re-read by `get` is
field-for-field identical to the one written, for all seven fields. -/
theorem record_round_trip (d : DeployInfo) :
    record_of_json (record_to_json d) = some d := rfl

theorem deploy_records_char (w : World) (s b : String) (fs : FS) :
    ((deploy_frontend w s b fs).2).records =
      match (deploy_frontend w s b fs).1 with
      | .ok info => setKey info.project_id info fs.records
      | .error _ => fs.records := by
  unfold deploy_frontend
  cases w.sourceTree with
  | none => rfl
  | some src =>
    cases find_available_port w.portFree 8080 100 with
    | none => rfl
    | some port =>
      cases hc : w.copyOk with
      | false => rfl
      | true =>
        unfold create_nginx_conf
        cases hw : w.confWriteOk with
        | false => rfl
        | true =>
          cases reload_nginx w with
          | error e => rfl
          | ok c => rfl

/-- Claim C1: any failure of steps 1-7 of the deploy orchestrator aborts
before the record is persisted — the record store is unchanged — and a
success persists exactly the returned fully-formed seven-field record
under its id. -/
theorem deploy_abort_no_record (w : World) (s b : String) (fs : FS) :
    (∀ e, (deploy_frontend w s b fs).1 = .error e →
        ((deploy_frontend w s b fs).2).records = fs.records)
    ∧ (∀ info, (deploy_frontend w s b fs).1 = .ok info →
        ((deploy_frontend w s b fs).2).records =
          setKey info.project_id info fs.records) := by
  constructor
  · intro e he
    rw [deploy_records_char w s b fs, he]
  · intro info hi
    rw [deploy_records_char w s b fs, hi]

/-- Concrete world whose only failure is a missing source directory. -/
def wNoSource : World := { wAllOk with sourceTree := none }

theorem deploy_abort_no_record_witness :
    ((deploy_frontend wNoSource "/app/dist" "/base" fsEmpty).2).records =
      fsEmpty.records :=
  (deploy_abort_no_record wNoSource "/app/dist" "/base" fsEmpty).1
    .sourceNotFound rfl

theorem cleanupAfterConf_records (w : World) (id : String) (fs : FS) :
    (cleanupAfterConf w id fs).1 = false →
    ((cleanupAfterConf w id fs).2).records = fs.records := by
  unfold cleanupAfterConf
  cases cleanupReloadStep w with
  | error e => intro _; rfl
  | ok c => intro h; simp at h

theorem cleanupAfterHtml_records (w : World) (id : String)
    (info : DeployInfo) (fs : FS) :
    (cleanupAfterHtml w id info fs).1 = false →
    ((cleanupAfterHtml w id info fs).2).records = fs.records := by
  unfold cleanupAfterHtml
  cases h1 : (fs.confFiles.lookup info.conf_file).isSome with
  | false =>
    simp only [h1, Bool.false_eq_true, if_false]
    exact cleanupAfterConf_records w id fs
  | true =>
    simp only [h1, if_true]
    cases h2 : w.unlinkOk with
    | false => intro _; rfl
    | true =>
      simp only [if_true]
      exact cleanupAfterConf_records w id _

theorem cleanup_records_preserved (w : World) (id : String) (fs : FS) :
    (cleanup_deployment w id fs).1 = false →
    ((cleanup_deployment w id fs).2).records = fs.records := by
  unfold cleanup_deployment
  cases hrec : fs.records.lookup id with
  | none => intro _; rfl
  | some info =>
    cases hh : (fs.htmlDirs.lookup info.html_dir).isSome with
    | false =>
      simp only [hh, Bool.false_eq_true, if_false]
      exact cleanupAfterHtml_records w id info fs
    | true =>
      simp only [hh, if_true]
      cases hr : w.rmtreeOk with
      | false => intro _; rfl
      | true =>
        simp only [if_true]
        exact cleanupAfterHtml_records w id info _

/-- Claim C10: during cleanup of an existing id, the record file is
deleted strictly last — if the html removal, conf removal or reload step
fails, the deployment record is still on disk afterwards. -/
theorem cleanup_failure_preserves_record (w : World) (id : String)
    (fs : FS) (info : DeployInfo)
    (hrec : fs.records.lookup id = some info)
    (hfail : (cleanup_deployment w id fs).1 = false) :
    ((cleanup_deployment w id fs).2).records.lookup id = some info := by
  rw [cleanup_records_preserved w id fs hfail]
  exact hrec

/-- Record of the deployment used by the concrete cleanup scenarios. -/
def infoDemo : DeployInfo :=
  { project_id := "project-1700000000", port := 8080,
    url := "http://192.168.1.7:8080",
    html_dir := "/base/html/project-1700000000",
    conf_file := "/base/config/conf.d/project-1700000000.conf",
    source_dir := "/app/dist", deployed_at := "2023-11-14 22:13:20" }

/-- Filesystem state with exactly one complete deployment. -/
def fsOne : FS :=
  { records := [("project-1700000000", infoDemo)],
    htmlDirs := [("/base/html/project-1700000000", .dir [])],
    confFiles := [("/base/config/conf.d/project-1700000000.conf",
                   nginx_conf_content "project-1700000000" 8080)] }

/-- Concrete world whose only failure is the exec-reload command. -/
def wReloadFail : World := { wAllOk with reloadSignalOk := false }

theorem cleanup_failure_preserves_record_witness :
    ((cleanup_deployment wReloadFail "project-1700000000" fsOne).2).records.lookup
      "project-1700000000" = some infoDemo :=
  cleanup_failure_preserves_record wReloadFail "project-1700000000" fsOne
    infoDemo rfl rfl

/-- Counterexample to claim C4 as stated: cleaning the nonexistent id
`ghost` leaves the filesystem untouched, but the CLI invocation exits
with status 0, not 1 — cleanup's `main` discards the `False` returned by
`cleanup_deployment` and falls through to a normal process end. -/
theorem cleanup_missing_exit_cex :
    (cleanup_deployment wAllOk "ghost" fsEmpty).1 = false ∧
    (cleanup_main wAllOk ["ghost"] fsEmpty).1 = 0 ∧
    (cleanup_main wAllOk ["ghost"] fsEmpty).1 ≠ 1 :=
  ⟨rfl, rfl, by decide⟩

/-- Claim C4 (amended): cleanup of an id with no deployment record
reports failure and performs no filesystem mutation at all, and the
cleanup CLI invocation for that id then exits with status 0 (not 1),
because `main` ignores the result of `cleanup_deployment`. -/
theorem cleanup_missing_no_mutation (w : World) (id : String) (fs : FS)
    (h : fs.records.lookup id = none) (h1 : id ≠ "list") (h2 : id ≠ "all") :
    cleanup_deployment w id fs = (false, fs) ∧
    cleanup_main w [id] fs = (0, fs) := by
  have hc : cleanup_deployment w id fs = (false, fs) := by
    unfold cleanup_deployment
    rw [h]
  refine ⟨hc, ?_⟩
  unfold cleanup_main
  simp [h1, h2, hc]

theorem cleanup_missing_no_mutation_witness :
    cleanup_deployment wAllOk "ghost" fsEmpty = (false, fsEmpty) ∧
    cleanup_main wAllOk ["ghost"] fsEmpty = (0, fsEmpty) :=
  cleanup_missing_no_mutation wAllOk "ghost" fsEmpty rfl (by decide) (by decide)

/-- Concrete world with the compose file present but no running
container. -/
def wStopped : World := { wAllOk with containerRunning := false }

/-- Counterexample to claim C5 as stated: with no active proxy instance,
deploy's reload controller issues the full-topology start command while
cleanup's reload step still issues the exec-reload signal, so the reload
operation invoked by cleanup is not equivalent to the one invoked by
deploy. -/
theorem cleanup_reload_differs_cex :
    reload_nginx wStopped = .ok .composeUp ∧
    cleanupReloadStep wStopped = .ok .execReload ∧
    (Except.ok NginxCmd.composeUp : Except DeployErr NginxCmd) ≠
      .ok .execReload :=
  ⟨rfl, rfl, fun h => NginxCmd.noConfusion (Except.ok.inj h)⟩

/-- Claim C5 (amended): cleanup's reload step unconditionally signals a
configuration reload of the named instance, without checking the compose
file or observing whether the instance is active and never issuing the
start command; it coincides with the deploy-side reload controller
exactly when the compose file exists and an active instance is found. -/
theorem cleanup_reload_agrees_when_running (w : World)
    (h1 : w.composeExists = true) (h2 : w.containerRunning = true) :
    cleanupReloadStep w = reload_nginx w := by
  unfold reload_nginx cleanupReloadStep
  simp [h1, h2]

theorem cleanup_reload_agrees_when_running_witness :
    cleanupReloadStep wAllOk = reload_nginx wAllOk :=
  cleanup_reload_agrees_when_running wAllOk rfl rfl

theorem cleanupEach_fst (w : World) :
    ∀ (ids : List String) (fs : FS),
      ((cleanupEach w ids fs).1).map Prod.fst = ids
  | [], _ => rfl
  | id :: rest, fs => by
      simp [cleanupEach, cleanupEach_fst w rest]

/-- Counterexample to claim C7 as stated: a named-id cleanup whose
reload command fails reports the failure, yet the process exits with
status 0 — not a non-zero status — because cleanup's `main` ignores the
outcome of `cleanup_deployment`. -/
theorem cli_failure_exit_cex :
    (cleanup_deployment wReloadFail "project-1700000000" fsOne).1 = false ∧
    (cleanup_main wReloadFail ["project-1700000000"] fsOne).1 = 0 ∧
    (cleanup_main wReloadFail ["project-1700000000"] fsOne).1 ≠ 1 :=
  ⟨rfl, rfl, by decide⟩

/-- Claim C7 (amended): a failing deploy CLI invocation exits with
status 1 (and a success with 0); a named-id cleanup invocation always
exits with status 0, even when the cleanup failed and was only reported
in the printed output; the bulk cleanup path attempts every record
independently, continuing past per-id failures. -/
theorem cli_exit_spec (w : World) (fs : FS) :
    (∀ src rest, (deploy_main w (src :: rest) fs).1 =
        match (deploy_frontend w src (argBase rest) fs).1 with
        | .ok _ => 0
        | .error _ => 1)
    ∧ (∀ id rest, id ≠ "list" → id ≠ "all" →
        (cleanup_main w (id :: rest) fs).1 = 0)
    ∧ ((cleanup_all w fs).1).map Prod.fst = fs.records.map Prod.fst := by
  refine ⟨?_, ?_, ?_⟩
  · intro src rest
    have hm : deploy_main w (src :: rest) fs =
        match deploy_frontend w src (argBase rest) fs with
        | (.ok _, fs2) => (0, fs2)
        | (.error _, fs2) => (1, fs2) := rfl
    rw [hm]
    cases hd : deploy_frontend w src (argBase rest) fs with
    | mk r fs2 => cases r <;> rfl
  · intro id rest h1 h2
    unfold cleanup_main
    simp [h1, h2]
  · unfold cleanup_all
    exact cleanupEach_fst w _ fs

theorem cli_exit_spec_witness :
    (deploy_main wNoSource ["/app/dist", "/base"] fsEmpty).1 = 1 ∧
    (cleanup_main wReloadFail ["project-1700000000"] fsOne).1 = 0 :=
  ⟨((cli_exit_spec wNoSource fsEmpty).1 "/app/dist" ["/base"]).trans rfl,
   (cli_exit_spec wReloadFail fsOne).2.1 "project-1700000000" []
     (by decide) (by decide)⟩

/-- Outcome of a first deployment into an empty base directory. -/
def deployFirst : Except DeployErr DeployInfo × FS :=
  deploy_frontend wAllOk "/app/dist" "/base" fsEmpty

/-- Outcome of a second deployment run within the same wall-clock second
as the first. -/
def deploySecond : Except DeployErr DeployInfo × FS :=
  deploy_frontend wAllOk "/app/dist" "/base" deployFirst.2

/-- Successful payload of an orchestration result. -/
def okInfo (r : Except DeployErr DeployInfo) : Option DeployInfo :=
  match r with
  | .ok info => some info
  | .error _ => none

/-- Counterexample to claim C8 as stated: the id is derived from
`int(time.time())` alone, so two deployment operations that run within
the same wall-clock second generate the same id, the same `html_dir` and
the same `conf_file`; the second record overwrites the first instead of
coexisting with it. -/
theorem duplicate_id_same_second_cex :
    (okInfo deployFirst.1).map DeployInfo.project_id =
      some "project-1700000000" ∧
    (okInfo deploySecond.1).map DeployInfo.project_id =
      some "project-1700000000" ∧
    (okInfo deployFirst.1).map DeployInfo.html_dir =
      (okInfo deploySecond.1).map DeployInfo.html_dir ∧
    (okInfo deployFirst.1).map DeployInfo.conf_file =
      (okInfo deploySecond.1).map DeployInfo.conf_file ∧
    (deploySecond.2).records.map Prod.fst = ["project-1700000000"] :=
  ⟨rfl, rfl, rfl, rfl, rfl⟩

theorem toDigitsCore_append (b f : Nat) :
    ∀ (n : Nat) (ds : List Char),
      Nat.toDigitsCore b f n ds = Nat.toDigitsCore b f n [] ++ ds := by
  induction f with
  | zero => intro n ds; simp [Nat.toDigitsCore]
  | succ f ih =>
    intro n ds
    simp only [Nat.toDigitsCore]
    by_cases h : n / b = 0
    · simp [h]
    · simp only [h, if_false]
      rw [ih (n / b) (Nat.digitChar (n % b) :: ds),
          ih (n / b) [Nat.digitChar (n % b)]]
      simp

theorem toDigitsCore_eq_digits :
    ∀ (f n : Nat), 0 < n → n < f →
      Nat.toDigitsCore 10 f n [] =
        ((Nat.digits 10 n).map Nat.digitChar).reverse := by
  intro f
  induction f with
  | zero => intro n h1 h2; omega
  | succ f ih =>
    intro n h1 h2
    simp only [Nat.toDigitsCore]
    rw [Nat.digits_def' (by norm_num : (1:ℕ) < 10) h1]
    by_cases h : n / 10 = 0
    · simp [h]
    · simp only [h, if_false]
      rw [toDigitsCore_append 10 f (n / 10) [Nat.digitChar (n % 10)]]
      rw [ih (n / 10) (Nat.pos_of_ne_zero h)
            (lt_of_lt_of_le (Nat.div_lt_self h1 (by norm_num))
              (Nat.lt_succ_iff.mp h2))]
      simp

theorem repr_eq_digits (k : Nat) (hk : 0 < k) :
    Nat.repr k = (((Nat.digits 10 k).map Nat.digitChar).reverse).asString := by
  show (Nat.toDigits 10 k).asString = _
  rw [Nat.toDigits, toDigitsCore_eq_digits (k + 1) k hk (Nat.lt_succ_self k)]

theorem list_asString_inj (l1 l2 : List Char) (h : l1.asString = l2.asString) :
    l1 = l2 :=
  congrArg String.data h

theorem digitChar_inj_lt :
    ∀ a < 10, ∀ b < 10, Nat.digitChar a = Nat.digitChar b → a = b := by decide

theorem map_digitChar_inj :
    ∀ (l1 l2 : List Nat), (∀ x ∈ l1, x < 10) → (∀ x ∈ l2, x < 10) →
      l1.map Nat.digitChar = l2.map Nat.digitChar → l1 = l2 := by
  intro l1
  induction l1 with
  | nil =>
    intro l2 _ _ h
    cases l2 with
    | nil => rfl
    | cons b t2 => simp at h
  | cons a t ih =>
    intro l2 h1 h2 h
    cases l2 with
    | nil => simp at h
    | cons b t2 =>
      simp only [List.map_cons, List.cons.injEq] at h
      obtain ⟨hab, ht⟩ := h
      have ha : a < 10 := h1 a (List.mem_cons_self a t)
      have hb : b < 10 := h2 b (List.mem_cons_self b t2)
      have hab2 : a = b := digitChar_inj_lt a ha b hb hab
      subst hab2
      rw [ih t2 (fun x hx => h1 x (List.mem_cons_of_mem a hx))
            (fun x hx => h2 x (List.mem_cons_of_mem a hx)) ht]

theorem digits_eq_of_map_eq (m n : Nat)
    (h : (Nat.digits 10 m).map Nat.digitChar =
         (Nat.digits 10 n).map Nat.digitChar) : m = n := by
  have hd := map_digitChar_inj _ _
    (fun x hx => Nat.digits_lt_base (by norm_num) hx)
    (fun x hx => Nat.digits_lt_base (by norm_num) hx) h
  calc m = Nat.ofDigits 10 (Nat.digits 10 m) := (Nat.ofDigits_digits 10 m).symm
    _ = Nat.ofDigits 10 (Nat.digits 10 n) := by rw [hd]
    _ = n := Nat.ofDigits_digits 10 n

theorem repr_pos_ne_repr_zero (n : Nat) (hn : 0 < n) :
    Nat.repr n ≠ Nat.repr 0 := by
  intro h
  rw [repr_eq_digits n hn] at h
  have hl := list_asString_inj _ _ h
  have h2 : (Nat.digits 10 n).map Nat.digitChar = ['0'] := by
    have h3 := congrArg List.reverse hl
    simpa using h3
  have h4 : Nat.digits 10 n = [0] := by
    apply map_digitChar_inj _ _
      (fun x hx => Nat.digits_lt_base (by norm_num) hx)
      (fun x hx => by simp at hx; omega)
    rw [h2]; rfl
  have h5 : n = Nat.ofDigits 10 ([0] : List Nat) := by
    rw [← h4, Nat.ofDigits_digits]
  simp [Nat.ofDigits] at h5
  omega

theorem nat_repr_inj (m n : Nat) (h : Nat.repr m = Nat.repr n) : m = n := by
  rcases Nat.eq_zero_or_pos m with hm | hm <;>
    rcases Nat.eq_zero_or_pos n with hn | hn
  · omega
  · subst hm; exact absurd h.symm (repr_pos_ne_repr_zero n hn)
  · subst hn; exact absurd h (repr_pos_ne_repr_zero m hm)
  · rw [repr_eq_digits m hm, repr_eq_digits n hn] at h
    have hl := list_asString_inj _ _ h
    have h2 := congrArg List.reverse hl
    simp only [List.reverse_reverse] at h2
    exact digits_eq_of_map_eq m n h2

theorem string_data_append (s t : String) : (s ++ t).data = s.data ++ t.data := by
  cases s; cases t; rfl

theorem string_eq_of_data_eq (s t : String) (h : s.data = t.data) : s = t := by
  cases s; cases t; exact congrArg String.mk h

theorem string_append_cancel_left (s t1 t2 : String) (h : s ++ t1 = s ++ t2) :
    t1 = t2 := by
  have hd := congrArg String.data h
  rw [string_data_append, string_data_append] at hd
  exact string_eq_of_data_eq _ _ (List.append_cancel_left hd)

theorem string_append_cancel_right (s1 s2 t : String) (h : s1 ++ t = s2 ++ t) :
    s1 = s2 := by
  have hd := congrArg String.data h
  rw [string_data_append, string_data_append] at hd
  exact string_eq_of_data_eq _ _ (List.append_cancel_right hd)

/-- Claim C8 (amended): deployment ids are derived solely from the
integer second read from the wall clock, so two deployment operations
that observe distinct seconds generate distinct ids and hence distinct
`html_dir` and `conf_file` paths under the same base directory; two
operations within the same second collide (see the counterexample). -/
theorem project_ids_distinct_across_seconds (t1 t2 : Nat) (base : String)
    (h : t1 ≠ t2) :
    generate_project_id t1 ≠ generate_project_id t2 ∧
    htmlDirPath base (generate_project_id t1) ≠
      htmlDirPath base (generate_project_id t2) ∧
    confFilePath base (generate_project_id t1) ≠
      confFilePath base (generate_project_id t2) := by
  have hid : generate_project_id t1 ≠ generate_project_id t2 := by
    intro he
    exact h (nat_repr_inj t1 t2 (string_append_cancel_left "project-" _ _ he))
  refine ⟨hid, ?_, ?_⟩
  · intro he
    exact hid (string_append_cancel_left (base ++ "/html/") _ _ he)
  · intro he
    have h1 := string_append_cancel_right _ _ ".conf" he
    exact hid (string_append_cancel_left (base ++ "/config/conf.d/") _ _ h1)

theorem project_ids_distinct_across_seconds_witness :
    generate_project_id 1700000000 ≠ generate_project_id 1700000001 :=
  (project_ids_distinct_across_seconds 1700000000 1700000001 "/base"
    (by omega)).1
